import Mathlib

/-!
Shallow embedding of the exo-query texture-synthesis core
(`generatePlanetTexture.js`, i.e. `src/unnamed/part_000`) and catalog client
(`api.js`, i.e. `src/unnamed/part_001`), with the caller's unwrapping step from
`src/App.js`.  JavaScript numbers are modelled as exact rationals plus an
explicit NaN value; `undefined` coerces to NaN and `null` to 0 in numeric
contexts, and every relational comparison involving NaN is false, exactly as in
JavaScript for the operators the source uses.
-/

namespace ExoQuery

/-- A JavaScript number in the fragment the source exercises: NaN or an exact
rational.  (All literals in the source are exactly representable; infinities
never arise on the executed paths.) -/
inductive JSNum where
  | nan : JSNum
  | num : ℚ → JSNum
deriving DecidableEq

/-- JS subtraction: NaN-absorbing. -/
def JSNum.sub : JSNum → JSNum → JSNum
  | .num a, .num b => .num (a - b)
  | _, _ => .nan

/-- JS division.  NaN-absorbing; a zero divisor is mapped to NaN (the source
only ever divides by the nonzero constant `maxTemp - minTemp = 350`, so the
JS infinity cases are unreachable). -/
def JSNum.div : JSNum → JSNum → JSNum
  | .num a, .num b => if b = 0 then .nan else .num (a / b)
  | _, _ => .nan

/-- The larger of two rationals (`Math.max` on actual numbers). -/
def qmax (a b : ℚ) : ℚ := if a ≤ b then b else a

/-- The smaller of two rationals (`Math.min` on actual numbers). -/
def qmin (a b : ℚ) : ℚ := if a ≤ b then a else b

/-- `Math.abs` on a rational. -/
def jsAbs (q : ℚ) : ℚ := if q < 0 then -q else q

/-- JS `Math.max`: NaN if either argument is NaN. -/
def JSNum.maxJ : JSNum → JSNum → JSNum
  | .num a, .num b => .num (qmax a b)
  | _, _ => .nan

/-- JS `Math.min`: NaN if either argument is NaN. -/
def JSNum.minJ : JSNum → JSNum → JSNum
  | .num a, .num b => .num (qmin a b)
  | _, _ => .nan

/-- JS strict `>`: false whenever either side is NaN. -/
def JSNum.gtb : JSNum → JSNum → Bool
  | .num a, .num b => decide (b < a)
  | _, _ => false

/-- Add a rational constant to a JS number. -/
def JSNum.addQ : JSNum → ℚ → JSNum
  | .num a, c => .num (a + c)
  | .nan, _ => .nan

/-- JS truncation toward zero (the `%` operator's implicit quotient). -/
def jsTrunc (q : ℚ) : ℤ :=
  if 0 ≤ q then ⌊q⌋ else ⌈q⌉

/-- JS remainder `a % m` (sign of the dividend, quotient truncated toward
zero).  Only used with `m = 1` by `euclideanModulo`. -/
def jsMod (a m : ℚ) : ℚ :=
  a - m * jsTrunc (a / m)

/-- three.js `MathUtils.euclideanModulo( n, m ) = ( ( n % m ) + m ) % m`,
NaN-absorbing on the dividend. -/
def JSNum.euclideanModulo : JSNum → ℚ → JSNum
  | .nan, _ => .nan
  | .num a, m => .num (jsMod (jsMod a m + m) m)

/-- The `aroundPlanet` sub-record of a catalog body. -/
structure AroundPlanet where
  planet : Option String
deriving DecidableEq

/-- A catalog body, restricted to the fields the synthesis core reads.
`none` models an absent (`undefined`) field. -/
structure CelestialBody where
  meanRadius : Option ℚ
  avgTemp : Option ℚ
  bodyType : Option String
  density : Option ℚ
  axialTilt : Option ℚ
  aroundPlanet : Option AroundPlanet
deriving DecidableEq

/-- Reading a possibly-absent numeric field in a JS numeric context:
`undefined` coerces to NaN. -/
def jsOfField : Option ℚ → JSNum
  | none => .nan
  | some q => .num q

/-- The static `textures` asset table of `generatePlanetTexture.js`. -/
structure TextureTable where
  mercury : String
  venus : String
  mars : String
  jupiter : String
  saturn : String
  uranus : String
  neptune : String
deriving DecidableEq

def textures : TextureTable :=
  { mercury := "exo-query/textures/2k_mercury.jpg"
    venus := "exo-query/textures/2k_venus_surface.jpg"
    mars := "exo-query/textures/2k_mars.jpg"
    jupiter := "exo-query/textures/2k_jupiter.jpg"
    saturn := "exo-query/textures/2k_saturn.jpg"
    uranus := "exo-query/textures/2k_uranus.jpg"
    neptune := "exo-query/textures/2k_neptune.jpg" }

/-- The static `temperatures` reference table.  `none` is an absent key
(JS property access yields `undefined`); `some none` is the table's explicit
`null` entry; `some (some v)` is a Kelvin value. -/
def temperatures (key : String) : Option (Option ℚ) :=
  if key = "terre" then some (some 288)
  else if key = "mars" then some (some 210)
  else if key = "jupiter" then some (some 165)
  else if key = "saturne" then some (some 134)
  else if key = "uranus" then some (some 76)
  else if key = "neptune" then some (some 72)
  else if key = "pluton" then some (some 44)
  else if key = "haumea" then some (some 73)
  else if key = "eris" then some (some 43)
  else if key = "null" then some none
  else if key = "eugenia" then some (some 90)
  else if key = "sylvia" then some (some 90)
  else if key = "orcus" then some (some 70)
  else if key = "ida" then some (some 200)
  else if key = "kleopatra" then some (some 220)
  else if key = "quaoar" then some (some 70)
  else if key = "makemake" then some (some 75)
  else none

/-- Reading a table lookup result in a JS numeric context: an absent key gives
`undefined` (NaN); the `null` entry coerces to 0.  (For the `>` comparisons the
source performs, `null` likewise behaves as 0.) -/
def jsOfLookup : Option (Option ℚ) → JSNum
  | none => .nan
  | some none => .num 0
  | some (some v) => .num v

/-- `selectPlanetTexture` (lines 35–53): reads `exoplanet.bodyType` and the
body's own `exoplanet.avgTemp` field. -/
def selectPlanetTexture (exoplanet : CelestialBody) : String :=
  if exoplanet.bodyType = some "Gas Giant" then
    if JSNum.gtb (jsOfField exoplanet.avgTemp) (.num 500) then textures.jupiter
    else textures.saturn
  else if exoplanet.bodyType = some "Rocky" then
    if JSNum.gtb (jsOfField exoplanet.avgTemp) (.num 300) then textures.venus
    else textures.mars
  else textures.mercury

/-- An RGB color with rational channels, as produced by `THREE.Color`. -/
structure Color where
  r : ℚ
  g : ℚ
  b : ℚ
deriving DecidableEq

/-- three.js `hue2rgb( p, q, t )`.  With a NaN `t` every comparison is false
and the function returns `p`. -/
def hue2rgb (p q : ℚ) : JSNum → ℚ
  | .nan => p
  | .num t0 =>
    let t1 := if t0 < 0 then t0 + 1 else t0
    let t2 := if 1 < t1 then t1 - 1 else t1
    if t2 < 1/6 then p + (q - p) * 6 * t2
    else if t2 < 1/2 then q
    else if t2 < 2/3 then p + (q - p) * 6 * (2/3 - t2)
    else p

/-- three.js `Color.setHSL( h, s, l )`: hue wrapped by `euclideanModulo`,
saturation and lightness clamped to `[0,1]`, then the standard HSL→RGB
conversion. -/
def Color.setHSL (h : JSNum) (s l : ℚ) : Color :=
  let h := JSNum.euclideanModulo h 1
  let s := qmax 0 (qmin 1 s)
  let l := qmax 0 (qmin 1 l)
  if s = 0 then ⟨l, l, l⟩
  else
    let p := if l ≤ 1/2 then l * (1 + s) else l + s - l * s
    let q := 2 * l - p
    ⟨hue2rgb q p (h.addQ (1/3)), hue2rgb q p h, hue2rgb q p (h.addQ (-1/3))⟩

/-- `temperatureToColor` (lines 56–70): clamp the normalized temperature to
`[0,1]` and feed hue `1 - normalized` to `setHSL` at s = 1, l = 0.5. -/
def temperatureToColor (avgTemp : JSNum) : Color :=
  let minTemp : ℚ := 50
  let maxTemp : ℚ := 400
  let normalizedTemp :=
    JSNum.minJ (JSNum.maxJ (JSNum.div (JSNum.sub avgTemp (.num minTemp))
      (.num (maxTemp - minTemp))) (.num 0)) (.num 1)
  Color.setHSL (JSNum.sub (.num 1) normalizedTemp) 1 (1/2)

/-- Step 1 of `generatePlanetTexture` (lines 75–79): the local `avgTemp` is
replaced by the table lookup when `aroundPlanet && aroundPlanet.planet` is
truthy (present and a nonempty string). -/
def effectiveAvgTemp (exoplanet : CelestialBody) : JSNum :=
  match exoplanet.aroundPlanet with
  | some ap =>
    match ap.planet with
    | some p => if p = "" then jsOfField exoplanet.avgTemp else jsOfLookup (temperatures p)
    | none => jsOfField exoplanet.avgTemp
  | none => jsOfField exoplanet.avgTemp

/-- Lines 105–110: the per-body tint — `temperatureToColor` of the effective
temperature, darkened by `multiplyScalar(0.8)` when `density > 5`. -/
def baseColor (exoplanet : CelestialBody) : Color :=
  let c := temperatureToColor (effectiveAvgTemp exoplanet)
  if JSNum.gtb (jsOfField exoplanet.density) (.num 5) then
    ⟨c.r * (4/5), c.g * (4/5), c.b * (4/5)⟩
  else c

def textureSize : ℕ := 1024

/-- The geometric polar-band test of lines 119–123:
`|y/size - 0.5| > 0.4 && |x/size - 0.5| < 0.5`. -/
def polarBand (x y : ℕ) : Bool :=
  let nx : ℚ := (x : ℚ) / (textureSize : ℚ) - 1/2
  let ny : ℚ := (y : ℚ) / (textureSize : ℚ) - 1/2
  decide (2/5 < jsAbs ny) && decide (jsAbs nx < 1/2)

/-- One pixel's RGB channels as stored in the canvas image data (bytes). -/
structure RGB8 where
  r : ℕ
  g : ℕ
  b : ℕ
deriving DecidableEq

/-- Lines 117–130: the ice-cap override writes pure white into the pixel when
the polar-band test passes and `axialTilt > 20`. -/
def iceStage (exoplanet : CelestialBody) (x y : ℕ) (px : RGB8) : RGB8 :=
  if polarBand x y && JSNum.gtb (jsOfField exoplanet.axialTilt) (.num 20) then
    ⟨255, 255, 255⟩
  else px

/-- Storing a JS number into a `Uint8ClampedArray` slot: clamp to `[0,255]`
and round to the nearest integer, ties to even. -/
def toUint8Clamp (q : ℚ) : ℕ :=
  if q ≤ 0 then 0
  else if 255 ≤ q then 255
  else
    let f : ℤ := ⌊q⌋
    let frac : ℚ := q - f
    (if frac < 1/2 then f
     else if 1/2 < frac then f + 1
     else if f % 2 = 0 then f else f + 1).toNat

/-- Lines 132–147: per-pixel tint multiplication — read channels as `[0,1]`
floats, multiply componentwise by the tint, write back as clamped bytes. -/
def tintStage (tint : Color) (px : RGB8) : RGB8 :=
  let c : Color := ⟨(px.r : ℚ) / 255, (px.g : ℚ) / 255, (px.b : ℚ) / 255⟩
  let c2 : Color := ⟨c.r * tint.r, c.g * tint.g, c.b * tint.b⟩
  ⟨toUint8Clamp (c2.r * 255), toUint8Clamp (c2.g * 255), toUint8Clamp (c2.b * 255)⟩

/-- The whole per-pixel pipeline of the loop body: ice override first, then
tint multiplication, within the same iteration. -/
def compositePixel (exoplanet : CelestialBody) (x y : ℕ) (px : RGB8) : RGB8 :=
  tintStage (baseColor exoplanet) (iceStage exoplanet x y px)

/-- A loaded base image, already scaled to the canvas resolution (the
`drawImage` call stretches it to `textureSize × textureSize`). -/
abbrev PlanetImage := ℕ → ℕ → RGB8

/-- The finished Step-4 pixel buffer as a function of the drawn base image. -/
def compositedPixels (exoplanet : CelestialBody) (base : PlanetImage) : PlanetImage :=
  fun x y => compositePixel exoplanet x y (base x y)

/-- The color-space tag carried by the resolved texture: the primary path sets
`texture.encoding = THREE.LinearSRGBColorSpace` (line 154); a texture straight
from the loader keeps the default. -/
inductive TexEncoding where
  | linearSRGB : TexEncoding
  | defaultEnc : TexEncoding
deriving DecidableEq

/-- A value the promise can resolve with: the composited canvas texture with
its encoding tag, or a raw loader texture. -/
inductive Texture where
  | canvasTex : PlanetImage → TexEncoding → Texture
  | rawTex : PlanetImage → Texture

/-- Whether a resolved texture is the composited canvas buffer tagged for
linear color-space interpretation. -/
def Texture.isCompositedLinear : Texture → Bool
  | .canvasTex _ .linearSRGB => true
  | .canvasTex _ .defaultEnc => false
  | .rawTex _ => false

/-- The environment of the two asynchronous loads a call can attempt: the
outcome of loading the selected path and, if consulted, the fallback
(`textures.mercury`) path.  Errors carry the loader's error value. -/
structure LoadEnv where
  primary : Except String PlanetImage
  fallback : Except String PlanetImage

/-- Settling of the `generatePlanetTexture` promise. -/
inductive SynthOutcome where
  | resolved : Texture → SynthOutcome
  | rejected : String → SynthOutcome

/-- The observable result of one `generatePlanetTexture` call: the promise
settlement, the ordered list of asset paths the loader was asked for, and the
caller's body record after the call returns. -/
structure SynthResult where
  outcome : SynthOutcome
  attempts : List String
  bodyAfter : CelestialBody

/-- `generatePlanetTexture` (lines 73–179).  The body is destructured into
locals (line 75) and the override (lines 77–79) reassigns only the local
`avgTemp`; no property of `exoplanet` is ever assigned, so the caller's record
after the call is the record passed in.  Success on the primary load runs the
Step-4 compositing and resolves the tagged canvas texture (lines 97–156);
failure retries once against `textures.mercury` and resolves the raw fallback
texture (lines 164–169); a second failure rejects with the fallback error
(lines 171–174). -/
def generatePlanetTexture (exoplanet : CelestialBody) (env : LoadEnv) : SynthResult :=
  let texturePath := selectPlanetTexture exoplanet
  match env.primary with
  | .ok baseImage =>
    { outcome := .resolved (.canvasTex (compositedPixels exoplanet baseImage) .linearSRGB)
      attempts := [texturePath]
      bodyAfter := exoplanet }
  | .error _ =>
    match env.fallback with
    | .ok fallbackTexture =>
      { outcome := .resolved (.rawTex fallbackTexture)
        attempts := [texturePath, textures.mercury]
        bodyAfter := exoplanet }
    | .error fallbackError =>
      { outcome := .rejected fallbackError
        attempts := [texturePath, textures.mercury]
        bodyAfter := exoplanet }

/-- The remote API's response shape: an object with a `bodies` field. -/
structure ApiResponse where
  bodies : List CelestialBody
deriving DecidableEq

/-- The JS values flowing through the catalog path: `undefined`, an array of
bodies, or the response-data object. -/
inductive CatalogValue where
  | jsUndefined : CatalogValue
  | arr : List CelestialBody → CatalogValue
  | respObj : ApiResponse → CatalogValue
deriving DecidableEq

/-- `getExoplanets` (`api.js` lines 6–14): the `try` returns `response.data`
(the response object) and the `catch` swallows every error and returns the
empty array, so the function itself never rejects. -/
def getExoplanets (request : Except String ApiResponse) : CatalogValue :=
  match request with
  | .ok response => .respObj response
  | .error _ => .arr []

/-- The caller's `exoplanetData.bodies` property read (`App.js` line 30): a
response object yields its `bodies` array; an array has no `bodies` property,
so the read yields `undefined`.  (Reading `.bodies` on `undefined` itself
would throw in JS; that case is unreachable from `getExoplanets`.) -/
def propBodies : CatalogValue → CatalogValue
  | .respObj r => .arr r.bodies
  | .arr _ => .jsUndefined
  | .jsUndefined => .jsUndefined

/-- Asset selection as the spec states it in Step 2 / §8: a function of
`bodyType` and the EFFECTIVE temperature (after the around-planet override),
with thresholds 500 and 300. -/
def specSelectionByEffectiveTemp (bodyType : Option String) (effTemp : JSNum) : String :=
  if bodyType = some "Gas Giant" then
    if JSNum.gtb effTemp (.num 500) then textures.jupiter else textures.saturn
  else if bodyType = some "Rocky" then
    if JSNum.gtb effTemp (.num 300) then textures.venus else textures.mars
  else textures.mercury

/-- A hot gas giant orbiting Mars: its own `avgTemp` is 600 but the effective
temperature after the override is Mars's 210. -/
def bodyC1 : CelestialBody :=
  { meanRadius := none, avgTemp := some 600, bodyType := some "Gas Giant",
    density := none, axialTilt := none, aroundPlanet := some { planet := some "mars" } }

/-- The same body without the around-planet record. -/
def bodyC1Free : CelestialBody :=
  { bodyC1 with aroundPlanet := none }

/-- A moon of a body absent from the reference temperature table. -/
def bodyUnknownMoon : CelestialBody :=
  { meanRadius := none, avgTemp := some 300, bodyType := some "Rocky",
    density := none, axialTilt := none, aroundPlanet := some { planet := some "vulcan" } }

/-- A moon whose parent key hits the table's explicit `null` entry. -/
def bodyNullMoon : CelestialBody :=
  { meanRadius := none, avgTemp := some 300, bodyType := some "Rocky",
    density := none, axialTilt := none, aroundPlanet := some { planet := some "null" } }

/-- A body with no `avgTemp` and no around-planet record. -/
def bodyNoTemp : CelestialBody :=
  { meanRadius := none, avgTemp := none, bodyType := some "Rocky",
    density := none, axialTilt := none, aroundPlanet := none }

/-- A moon of Mars with its own (ignored) `avgTemp`. -/
def bodyMarsMoon : CelestialBody :=
  { meanRadius := none, avgTemp := some 999, bodyType := some "Rocky",
    density := none, axialTilt := none, aroundPlanet := some { planet := some "mars" } }

/-- A strongly tilted body (`axialTilt = 25`). -/
def bodyTilt25 : CelestialBody :=
  { meanRadius := none, avgTemp := some 288, bodyType := some "Rocky",
    density := none, axialTilt := some 25, aroundPlanet := none }

/-- A mildly tilted body (`axialTilt = 10`). -/
def bodyTilt10 : CelestialBody :=
  { bodyTilt25 with axialTilt := some 10 }

/-- A dense body (`density = 6 > 5`). -/
def bodyDense : CelestialBody :=
  { meanRadius := none, avgTemp := some 288, bodyType := some "Rocky",
    density := some 6, axialTilt := none, aroundPlanet := none }

/-- The same body with `density = 3 ≤ 5`. -/
def bodyLight : CelestialBody :=
  { bodyDense with density := some 3 }

/-- A constant base image. -/
def imgA : PlanetImage := fun _ _ => ⟨10, 20, 30⟩

/-- A constant fallback image. -/
def imgB : PlanetImage := fun _ _ => ⟨40, 50, 60⟩

/-- Both loads succeed. -/
def envBothOk : LoadEnv := { primary := .ok imgA, fallback := .ok imgB }

/-- The primary load fails, the fallback succeeds. -/
def envPrimaryFails : LoadEnv := { primary := .error "primary 404", fallback := .ok imgB }

/-- Both loads fail. -/
def envBothFail : LoadEnv := { primary := .error "primary 404", fallback := .error "fallback 404" }

/-- C1 fails on the code: for a Gas Giant with raw `avgTemp = 600` around Mars
(effective temperature 210), `selectPlanetTexture` picks the hot-gas asset
while selection by bodyType and effective temperature would pick the cool-gas
asset — the override never feeds into asset selection. -/
theorem c1_counterexample :
    selectPlanetTexture bodyC1 ≠
      specSelectionByEffectiveTemp bodyC1.bodyType (effectiveAvgTemp bodyC1) := by
  decide

/-- C1 (amended): asset selection is a pure function of `bodyType` and the
body's own raw `avgTemp` field (the around-planet override does not affect
it), with the stated thresholds: Gas Giant at 500, Rocky at 300, fallback
otherwise. -/
theorem c1_selection_pure_in_raw_avgTemp (b b2 : CelestialBody)
    (hbt : b.bodyType = b2.bodyType) (hat : b.avgTemp = b2.avgTemp) :
    selectPlanetTexture b = specSelectionByEffectiveTemp b.bodyType (jsOfField b.avgTemp) ∧
    selectPlanetTexture b = selectPlanetTexture b2 := by
  constructor
  · rfl
  · unfold selectPlanetTexture
    rw [hbt, hat]

/-- Witness for C1 (amended) at a concrete pair differing only in
`aroundPlanet`. -/
theorem c1_selection_pure_in_raw_avgTemp_witness :
    selectPlanetTexture bodyC1 =
      specSelectionByEffectiveTemp bodyC1.bodyType (jsOfField bodyC1.avgTemp) ∧
    selectPlanetTexture bodyC1 = selectPlanetTexture bodyC1Free :=
  c1_selection_pure_in_raw_avgTemp bodyC1 bodyC1Free rfl rfl

/-- C2 fails on the code: when the primary load fails and the fallback load
succeeds, the promise resolves the raw fallback texture, which is not the
composited canvas buffer tagged for linear color-space interpretation. -/
theorem c2_counterexample :
    (generatePlanetTexture bodyC1 envPrimaryFails).outcome = .resolved (.rawTex imgB) ∧
    Texture.isCompositedLinear (.rawTex imgB) = false :=
  ⟨rfl, rfl⟩

/-- C2 (amended): a call that resolves via a successful primary load resolves
the Step-4 composited pixel buffer tagged linear; a call that resolves via the
fallback retry resolves the raw fallback image, uncomposited and untagged. -/
theorem c2_resolution_shape (b : CelestialBody) (env : LoadEnv) :
    (∀ img, env.primary = .ok img →
      (generatePlanetTexture b env).outcome =
        .resolved (.canvasTex (compositedPixels b img) .linearSRGB)) ∧
    (∀ e img, env.primary = .error e → env.fallback = .ok img →
      (generatePlanetTexture b env).outcome = .resolved (.rawTex img)) := by
  constructor
  · intro img h
    simp [generatePlanetTexture, h]
  · intro e img hp hf
    simp [generatePlanetTexture, hp, hf]

/-- Witness for C2 (amended) on concrete load environments. -/
theorem c2_resolution_shape_witness :
    (generatePlanetTexture bodyC1 envBothOk).outcome =
      .resolved (.canvasTex (compositedPixels bodyC1 imgA) .linearSRGB) ∧
    (generatePlanetTexture bodyC1 envPrimaryFails).outcome = .resolved (.rawTex imgB) :=
  ⟨(c2_resolution_shape bodyC1 envBothOk).1 imgA rfl,
   (c2_resolution_shape bodyC1 envPrimaryFails).2 "primary 404" imgB rfl rfl⟩

/-- C4: the promise rejects exactly when both loads fail; a primary failure
produces exactly one retry, against the fallback path; a fallback success
resolves; both failing rejects with the fallback load's error; a primary
success makes a single attempt and never rejects. -/
theorem c4_reject_iff_both_fail (b : CelestialBody) (env : LoadEnv) :
    ((∃ e, (generatePlanetTexture b env).outcome = .rejected e) ↔
      ((∃ e1, env.primary = .error e1) ∧ (∃ e2, env.fallback = .error e2))) ∧
    (∀ e1, env.primary = .error e1 →
      (generatePlanetTexture b env).attempts = [selectPlanetTexture b, textures.mercury]) ∧
    (∀ e1 img, env.primary = .error e1 → env.fallback = .ok img →
      (generatePlanetTexture b env).outcome = .resolved (.rawTex img)) ∧
    (∀ e1 e2, env.primary = .error e1 → env.fallback = .error e2 →
      (generatePlanetTexture b env).outcome = .rejected e2) ∧
    (∀ img, env.primary = .ok img →
      (generatePlanetTexture b env).attempts = [selectPlanetTexture b] ∧
      ∀ e, (generatePlanetTexture b env).outcome ≠ .rejected e) := by
  obtain ⟨p, f⟩ := env
  cases p <;> cases f <;> simp [generatePlanetTexture]

/-- Witness for C4 in the double-failure environment. -/
theorem c4_reject_iff_both_fail_witness :
    (generatePlanetTexture bodyC1 envBothFail).outcome = .rejected "fallback 404" ∧
    (generatePlanetTexture bodyC1 envBothFail).attempts =
      [selectPlanetTexture bodyC1, textures.mercury] :=
  ⟨(c4_reject_iff_both_fail bodyC1 envBothFail).2.2.2.1 "primary 404" "fallback 404" rfl rfl,
   (c4_reject_iff_both_fail bodyC1 envBothFail).2.1 "primary 404" rfl⟩

/-- C8 fails on the code: on a network error `getExoplanets` resolves the
empty ARRAY, but the caller in `App.js` reads the `bodies` property of the
resolved value, so it observes `undefined` rather than an empty body list
(while the success path, which resolves the response object, does yield the
fetched list through the same read). -/
theorem c8_error_path_bodies_undefined :
    getExoplanets (.error "Network Error") = .arr [] ∧
    propBodies (getExoplanets (.error "Network Error")) = .jsUndefined ∧
    propBodies (getExoplanets (.ok ⟨[]⟩)) = .arr [] ∧
    CatalogValue.jsUndefined ≠ .arr [] := by
  refine ⟨rfl, rfl, rfl, by decide⟩

/-- C10: `generatePlanetTexture` never mutates its input — the caller's body
record after any call, in any load environment, is exactly the record passed
in, field by field, even when the override recomputes the local temperature. -/
theorem c10_no_input_mutation (b : CelestialBody) (env : LoadEnv) :
    (generatePlanetTexture b env).bodyAfter = b ∧
    (generatePlanetTexture b env).bodyAfter.meanRadius = b.meanRadius ∧
    (generatePlanetTexture b env).bodyAfter.avgTemp = b.avgTemp ∧
    (generatePlanetTexture b env).bodyAfter.bodyType = b.bodyType ∧
    (generatePlanetTexture b env).bodyAfter.density = b.density ∧
    (generatePlanetTexture b env).bodyAfter.axialTilt = b.axialTilt ∧
    (generatePlanetTexture b env).bodyAfter.aroundPlanet = b.aroundPlanet := by
  obtain ⟨p, f⟩ := env
  cases p <;> cases f <;> simp [generatePlanetTexture]

/-- NaN temperature propagates to the black tint. -/
lemma temperatureToColor_nan_eq : temperatureToColor .nan = ⟨0, 0, 0⟩ := by
  norm_num [temperatureToColor, JSNum.sub, JSNum.div, JSNum.maxJ, JSNum.minJ, qmin, qmax,
    Color.setHSL, JSNum.euclideanModulo, JSNum.addQ, hue2rgb]

/-- The cold end of the scale (50 K, normalized 0) yields pure red. -/
lemma temperatureToColor_fifty_eq : temperatureToColor (.num 50) = ⟨1, 0, 0⟩ := by
  norm_num [temperatureToColor, JSNum.sub, JSNum.div, JSNum.maxJ, JSNum.minJ, qmin, qmax,
    Color.setHSL, JSNum.euclideanModulo, jsMod, jsTrunc, JSNum.addQ, hue2rgb]

/-- 0 K clamps to the cold end and yields the same pure red. -/
lemma temperatureToColor_zero_eq : temperatureToColor (.num 0) = ⟨1, 0, 0⟩ := by
  norm_num [temperatureToColor, JSNum.sub, JSNum.div, JSNum.maxJ, JSNum.minJ, qmin, qmax,
    Color.setHSL, JSNum.euclideanModulo, jsMod, jsTrunc, JSNum.addQ, hue2rgb]

/-- The hot end of the scale (400 K, normalized 1) also yields pure red. -/
lemma temperatureToColor_fourhundred_eq : temperatureToColor (.num 400) = ⟨1, 0, 0⟩ := by
  norm_num [temperatureToColor, JSNum.sub, JSNum.div, JSNum.maxJ, JSNum.minJ, qmin, qmax,
    Color.setHSL, JSNum.euclideanModulo, jsMod, jsTrunc, JSNum.addQ, hue2rgb]

/-- Pixel (512, 1000) lies in the polar band. -/
lemma polarBand_512_1000 : polarBand 512 1000 = true := by
  norm_num [polarBand, jsAbs, textureSize]

/-- The JS remainder by 1 lies strictly between -1 and 1. -/
lemma jsMod_one_bounds (a : ℚ) : -1 < jsMod a 1 ∧ jsMod a 1 < 1 := by
  simp only [jsMod, jsTrunc, div_one, one_mul]
  split_ifs with h
  · exact ⟨by linarith [Int.floor_le a], by linarith [Int.lt_floor_add_one a]⟩
  · exact ⟨by linarith [Int.ceil_lt_add_one a], by linarith [Int.le_ceil a]⟩

/-- three.js `euclideanModulo (·) 1` lands in `[0, 1)`. -/
lemma euclideanModulo_one_mem (a : ℚ) :
    0 ≤ jsMod (jsMod a 1 + 1) 1 ∧ jsMod (jsMod a 1 + 1) 1 < 1 := by
  obtain ⟨hl, hu⟩ := jsMod_one_bounds a
  set x := jsMod a 1 with hx
  have h0 : 0 ≤ x + 1 := by linarith
  have hmod : jsMod (x + 1) 1 = x + 1 - ⌊x + 1⌋ := by
    simp only [jsMod, jsTrunc, div_one, one_mul, if_pos h0]
  rw [hmod]
  exact ⟨by linarith [Int.floor_le (x + 1)], by linarith [Int.lt_floor_add_one (x + 1)]⟩

/-- `hue2rgb` with `p = 0`, `q = 1` (the setHSL instantiation at saturation 1,
lightness 1/2) is nonnegative for any hue offset at least -1. -/
lemma hue2rgb_zero_one_nonneg (t0 : ℚ) (h : -1 ≤ t0) : 0 ≤ hue2rgb 0 1 (.num t0) := by
  simp only [hue2rgb]
  split_ifs <;> linarith

/-- Every channel `setHSL` produces at saturation 1 and lightness 1/2 is
nonnegative, for any hue (including NaN). -/
lemma setHSL_one_half_nonneg (h : JSNum) :
    0 ≤ (Color.setHSL h 1 (1/2)).r ∧ 0 ≤ (Color.setHSL h 1 (1/2)).g ∧
      0 ≤ (Color.setHSL h 1 (1/2)).b := by
  cases h with
  | nan =>
    norm_num [Color.setHSL, JSNum.euclideanModulo, qmin, qmax, JSNum.addQ, hue2rgb]
  | num a =>
    obtain ⟨he0, he1⟩ := euclideanModulo_one_mem a
    have hform : Color.setHSL (.num a) 1 (1/2) =
        ⟨hue2rgb 0 1 (.num (jsMod (jsMod a 1 + 1) 1 + 1/3)),
          hue2rgb 0 1 (.num (jsMod (jsMod a 1 + 1) 1)),
          hue2rgb 0 1 (.num (jsMod (jsMod a 1 + 1) 1 + (-1/3)))⟩ := by
      norm_num [Color.setHSL, JSNum.euclideanModulo, JSNum.addQ, qmin, qmax]
    rw [hform]
    exact ⟨hue2rgb_zero_one_nonneg _ (by linarith), hue2rgb_zero_one_nonneg _ (by linarith),
      hue2rgb_zero_one_nonneg _ (by linarith)⟩

/-- Every channel of the temperature tint is nonnegative. -/
lemma temperatureToColor_nonneg (t : JSNum) :
    0 ≤ (temperatureToColor t).r ∧ 0 ≤ (temperatureToColor t).g ∧
      0 ≤ (temperatureToColor t).b := by
  unfold temperatureToColor
  exact setHSL_one_half_nonneg _

/-- The effective temperature only reads the `aroundPlanet` and `avgTemp`
fields. -/
lemma effectiveAvgTemp_congr (b1 b2 : CelestialBody)
    (hap : b1.aroundPlanet = b2.aroundPlanet) (ht : b1.avgTemp = b2.avgTemp) :
    effectiveAvgTemp b1 = effectiveAvgTemp b2 := by
  unfold effectiveAvgTemp
  rw [hap, ht]

/-- C3 fails on the code: for a moon of a body absent from the reference
table the tint is black `(0,0,0)`, which is NOT the minimum-of-scale tint
(the tint of the coldest in-range temperature, which is `(1,0,0)`). -/
theorem c3_counterexample :
    baseColor bodyUnknownMoon = ⟨0, 0, 0⟩ ∧
    temperatureToColor (.num 50) = ⟨1, 0, 0⟩ ∧
    baseColor bodyUnknownMoon ≠ temperatureToColor (.num 50) := by
  have h1 : effectiveAvgTemp bodyUnknownMoon = .nan := by decide
  have h2 : JSNum.gtb (jsOfField bodyUnknownMoon.density) (.num 5) = false := by decide
  have h3 : baseColor bodyUnknownMoon = ⟨0, 0, 0⟩ := by
    simp only [baseColor, h1, h2, temperatureToColor_nan_eq, Bool.false_eq_true, if_false]
  refine ⟨h3, temperatureToColor_fifty_eq, ?_⟩
  rw [h3, temperatureToColor_fifty_eq]
  decide

/-- C3 (amended): temperature resolution is total and crash-free, but only
the table's explicit "no data" (`null`) entry is treated as the minimum of the
color scale (its numeric coercion to 0 clamps to the cold end); an
`aroundPlanet.planet` key absent from the table, and an absent `avgTemp`,
instead yield NaN, and the downstream HSL conversion then produces the black
tint `(0,0,0)`, a well-defined color distinct from the minimum-of-scale tint. -/
theorem c3_lookup_total (b : CelestialBody) (p : String) :
    (b.aroundPlanet = some ⟨some p⟩ → temperatures p = some none →
      effectiveAvgTemp b = .num 0 ∧
      temperatureToColor (.num 0) = temperatureToColor (.num 50)) ∧
    (b.aroundPlanet = some ⟨some p⟩ → p ≠ "" → temperatures p = none →
      effectiveAvgTemp b = .nan) ∧
    (b.avgTemp = none → b.aroundPlanet = none → effectiveAvgTemp b = .nan) ∧
    temperatureToColor .nan = ⟨0, 0, 0⟩ := by
  refine ⟨?_, ?_, ?_, temperatureToColor_nan_eq⟩
  · intro hap hv
    have hne : p ≠ "" := by
      intro h
      subst h
      rw [show temperatures "" = none from rfl] at hv
      exact Option.noConfusion hv
    refine ⟨?_, by rw [temperatureToColor_zero_eq, temperatureToColor_fifty_eq]⟩
    simp [effectiveAvgTemp, hap, hne, hv, jsOfLookup]
  · intro hap hne hv
    simp [effectiveAvgTemp, hap, hne, hv, jsOfLookup]
  · intro ht hap
    simp [effectiveAvgTemp, hap, ht, jsOfField]

/-- Witness for C3 (amended) at concrete bodies hitting the `null` entry, an
unknown key, and an absent temperature. -/
theorem c3_lookup_total_witness :
    effectiveAvgTemp bodyNullMoon = .num 0 ∧
    effectiveAvgTemp bodyUnknownMoon = .nan ∧
    effectiveAvgTemp bodyNoTemp = .nan :=
  ⟨((c3_lookup_total bodyNullMoon "null").1 rfl rfl).1,
   (c3_lookup_total bodyUnknownMoon "vulcan").2.1 rfl (by decide) rfl,
   (c3_lookup_total bodyNoTemp "").2.2.1 rfl rfl⟩

/-- C5: the code contradicts its own comment (a sweep from blue at the cold
end to red at the hot end) — at the cold end of the scale `1 - normalized = 1`
wraps to hue 0, so the coldest temperature yields pure red `(1,0,0)`, the same
color as the hottest, not blue `(0,0,1)`. -/
theorem c5_cold_end_red_not_blue :
    temperatureToColor (.num 50) = ⟨1, 0, 0⟩ ∧
    temperatureToColor (.num 400) = ⟨1, 0, 0⟩ ∧
    (⟨1, 0, 0⟩ : Color) ≠ ⟨0, 0, 1⟩ := by
  refine ⟨temperatureToColor_fifty_eq, temperatureToColor_fourhundred_eq, by decide⟩

/-- C6: when `aroundPlanet.planet` is a key present in the reference table
with a numeric value, the effective temperature is the table value, whatever
`avgTemp` holds; for the key "mars" that value is 210. -/
theorem c6_override_uses_table (b : CelestialBody) (ap : AroundPlanet) (p : String) (v : ℚ)
    (hap : b.aroundPlanet = some ap) (hp : ap.planet = some p)
    (hv : temperatures p = some (some v)) :
    effectiveAvgTemp b = .num v ∧
    (∀ t, effectiveAvgTemp { b with avgTemp := t } = .num v) ∧
    (p = "mars" → v = 210) := by
  have hne : p ≠ "" := by
    intro h
    subst h
    rw [show temperatures "" = none from rfl] at hv
    exact Option.noConfusion hv
  refine ⟨?_, ?_, ?_⟩
  · simp [effectiveAvgTemp, hap, hp, hne, hv, jsOfLookup]
  · intro t
    simp [effectiveAvgTemp, hap, hp, hne, hv, jsOfLookup]
  · intro hm
    subst hm
    rw [show temperatures "mars" = some (some 210) from rfl] at hv
    simp only [Option.some.injEq] at hv
    exact hv.symm

/-- Witness for C6: a Mars moon with its own `avgTemp = 999` gets effective
temperature 210. -/
theorem c6_override_uses_table_witness :
    effectiveAvgTemp bodyMarsMoon = .num 210 :=
  (c6_override_uses_table bodyMarsMoon ⟨some "mars"⟩ "mars" 210 rfl rfl rfl).1

/-- C7: inside the polar band (`|ny| > 0.4` and `|nx| < 0.5`) a body with
`axialTilt > 20` has the pixel forced to pure white by the ice stage, which
runs before the tint multiplication; with `axialTilt ≤ 20` (or absent) no
pixel is ever overridden. -/
theorem c7_ice_overlay (b : CelestialBody) (x y : ℕ) (px : RGB8) (tilt : ℚ) :
    (polarBand x y = true → JSNum.gtb (jsOfField b.axialTilt) (.num 20) = true →
      iceStage b x y px = ⟨255, 255, 255⟩) ∧
    (b.axialTilt = some tilt → tilt ≤ 20 → iceStage b x y px = px) ∧
    (b.axialTilt = none → iceStage b x y px = px) ∧
    compositePixel b x y px = tintStage (baseColor b) (iceStage b x y px) := by
  refine ⟨?_, ?_, ?_, rfl⟩
  · intro h1 h2
    simp [iceStage, h1, h2]
  · intro h1 h2
    have hgt : JSNum.gtb (jsOfField b.axialTilt) (.num 20) = false := by
      rw [h1]
      simp only [jsOfField, JSNum.gtb, decide_eq_false_iff_not, not_lt]
      exact h2
    simp [iceStage, hgt]
  · intro h1
    simp [iceStage, h1, jsOfField, JSNum.gtb]

/-- Witness for C7 at pixel (512, 1000), which lies in the polar band:
tilt 25 forces white, tilt 10 leaves the pixel as drawn. -/
theorem c7_ice_overlay_witness :
    iceStage bodyTilt25 512 1000 ⟨10, 20, 30⟩ = ⟨255, 255, 255⟩ ∧
    iceStage bodyTilt10 512 1000 ⟨10, 20, 30⟩ = ⟨10, 20, 30⟩ :=
  ⟨(c7_ice_overlay bodyTilt25 512 1000 ⟨10, 20, 30⟩ 25).1 polarBand_512_1000 (by decide),
   (c7_ice_overlay bodyTilt10 512 1000 ⟨10, 20, 30⟩ 10).2.1 rfl (by norm_num)⟩

/-- C9: density darkening is monotone — for two bodies agreeing on the fields
the tint reads (`avgTemp`, `aroundPlanet`), the tint of the one with
`density > 5` is channelwise at most the tint of the one with `density ≤ 5`. -/
theorem c9_density_darkening (b1 b2 : CelestialBody)
    (ht : b1.avgTemp = b2.avgTemp) (hap : b1.aroundPlanet = b2.aroundPlanet)
    (hd1 : JSNum.gtb (jsOfField b1.density) (.num 5) = true)
    (hd2 : JSNum.gtb (jsOfField b2.density) (.num 5) = false) :
    (baseColor b1).r ≤ (baseColor b2).r ∧ (baseColor b1).g ≤ (baseColor b2).g ∧
      (baseColor b1).b ≤ (baseColor b2).b := by
  have heq : effectiveAvgTemp b1 = effectiveAvgTemp b2 :=
    effectiveAvgTemp_congr b1 b2 hap ht
  obtain ⟨hr, hg, hb⟩ := temperatureToColor_nonneg (effectiveAvgTemp b2)
  unfold baseColor
  rw [heq, hd1, hd2]
  simp only [if_true, Bool.false_eq_true, if_false]
  exact ⟨by linarith, by linarith, by linarith⟩

/-- Witness for C9: the same rocky body at density 6 versus density 3. -/
theorem c9_density_darkening_witness :
    (baseColor bodyDense).r ≤ (baseColor bodyLight).r ∧
    (baseColor bodyDense).g ≤ (baseColor bodyLight).g ∧
    (baseColor bodyDense).b ≤ (baseColor bodyLight).b :=
  c9_density_darkening bodyDense bodyLight rfl rfl (by decide) (by decide)

end ExoQuery
